import Mathlib

/-!
# The xv6 executor backend (`executor/executor_xv6.h`)

A shallow embedding of the xv6 backend of the syzkaller executor, and the
properties of its dispatcher, coverage reporter, bootstrap, capability stubs
and file-write helper.

## How the C code is embedded

* A machine word (`intptr_t`, a pointer) is an `Int`: the value of the word
  read as a signed integer.  The conversions to `int` and `short` are the
  two's-complement truncations `cast_int` and `cast_short`.
* A pointer is the word it is made of (`Ptr`); `(T*)x` keeps the word.
* The code runs against the xv6 kernel.  Every operation the process performs
  on it (the 21 system calls of `user/user.h`, and `printf` of the user
  library) is an `Op`.  The kernel is a parameter, `World`: it answers an
  operation, given everything the process did before, with the value the
  operation returns, or with `none` when the operation never returns to the
  caller (a successful `exec`, a `read` that blocks forever, ...).
* A C function that performs operations is an `Exec α`: it takes the kernel
  and the operations performed so far, and gives the operations performed
  when it ends together with the way it ends (`Outcome`): it returns a value,
  the process has exited with a status, or an operation never came back.
* A function that writes through a `cover_t*` is a function from the pointee
  before the call to the pointee after it; `none` is the null pointer.
-/

namespace Xv6Executor

set_option linter.unusedVariables false

/-! ## Constants -/

def XV6_PAGE_SIZE : Nat := 4096
abbrev XV6_MAX_ARGS : Nat := 6

def XV6_SYS_fork : Int := 1
def XV6_SYS_exit : Int := 2
def XV6_SYS_wait : Int := 3
def XV6_SYS_pipe : Int := 4
def XV6_SYS_read : Int := 5
def XV6_SYS_kill : Int := 6
def XV6_SYS_exec : Int := 7
def XV6_SYS_fstat : Int := 8
def XV6_SYS_chdir : Int := 9
def XV6_SYS_dup : Int := 10
def XV6_SYS_getpid : Int := 11
def XV6_SYS_sbrk : Int := 12
def XV6_SYS_sleep : Int := 13
def XV6_SYS_uptime : Int := 14
def XV6_SYS_open : Int := 15
def XV6_SYS_write : Int := 16
def XV6_SYS_mknod : Int := 17
def XV6_SYS_unlink : Int := 18
def XV6_SYS_link : Int := 19
def XV6_SYS_mkdir : Int := 20
def XV6_SYS_close : Int := 21

def XV6_O_RDONLY : Nat := 0x000
def XV6_O_WRONLY : Nat := 0x001
def XV6_O_RDWR : Nat := 0x002
def XV6_O_CREATE : Nat := 0x200
def XV6_O_TRUNC : Nat := 0x400

/-! ## Machine values -/

/-- The C conversion `(int)x`: the low 32 bits of the word, read as a signed
number. -/
def cast_int (x : Int) : Int := (x + 2 ^ 31) % 2 ^ 32 - 2 ^ 31

/-- The C conversion `(short)x`: the low 16 bits of the word, read as a signed
number. -/
def cast_short (x : Int) : Int := (x + 2 ^ 15) % 2 ^ 16 - 2 ^ 15

/-- A pointer of any pointee type: the machine word it is made of. -/
structure Ptr where
  word : Int
deriving DecidableEq, Repr

/-- The C conversion `(T*)x` of a word to a pointer: the word is kept. -/
def cast_ptr (x : Int) : Ptr := ⟨x⟩

/-- The C conversion `(intptr_t)p` of a pointer to a word: the word is kept. -/
def ptr_to_intptr (p : Ptr) : Int := p.word

/-- The null pointer. -/
def NULL : Ptr := ⟨0⟩

/-! ## Operations on the kernel -/

/-- An operation the process performs, with the arguments it receives (after
conversion to the parameter types of `user/user.h`). -/
inductive Op where
  | fork
  | exit (status : Int)
  | wait (status : Ptr)
  | pipe (fds : Ptr)
  | read (fd : Int) (buf : Ptr) (n : Int)
  | kill (pid : Int)
  | exec (path : Ptr) (argv : Ptr)
  | fstat (fd : Int) (st : Ptr)
  | chdir (path : Ptr)
  | dup (fd : Int)
  | getpid
  | sbrk (n : Int)
  | sleep (n : Int)
  | uptime
  | open (path : Ptr) (flags : Int)
  | write (fd : Int) (buf : Ptr) (n : Int)
  | mknod (path : Ptr) (major : Int) (minor : Int)
  | unlink (path : Ptr)
  | link (old : Ptr) (new : Ptr)
  | mkdir (path : Ptr)
  | close (fd : Int)
  | printf (text : String)
deriving DecidableEq, Repr

/-- The way a C function ends. -/
inductive Outcome (α : Type) where
  | returned (value : α)
  | exited (status : Int)
  | never_returns
deriving DecidableEq, Repr

/-- What a run of a C function leaves: the operations performed, oldest first,
and the way the function ended. -/
structure Run (α : Type) where
  trace : List Op
  outcome : Outcome α
deriving DecidableEq, Repr

/-- The kernel: given the operations performed so far and the next operation,
the word that operation returns, or `none` when it never returns. -/
abbrev World := List Op → Op → Option Int

/-- A C function that performs operations on the kernel. -/
def Exec (α : Type) : Type := World → List Op → Run α

namespace Exec

/-- A function that ends at once with a value (`return v;`). -/
def ret {α : Type} (v : α) : Exec α := fun _ t => ⟨t, .returned v⟩

/-- Sequencing of statements: what follows runs only when what precedes
returned. -/
def seq {α β : Type} (m : Exec α) (f : α → Exec β) : Exec β := fun w t =>
  match m w t with
  | ⟨t1, .returned v⟩ => f v w t1
  | ⟨t1, .exited s⟩ => ⟨t1, .exited s⟩
  | ⟨t1, .never_returns⟩ => ⟨t1, .never_returns⟩

end Exec

instance : Monad Exec where
  pure := Exec.ret
  bind := Exec.seq

/-- A call of an operation that returns an `int` (widened to a word without
change of value). -/
def native (op : Op) : Exec Int := fun w t =>
  match w t op with
  | some r => ⟨t ++ [op], .returned r⟩
  | none => ⟨t ++ [op], .never_returns⟩

/-- A call of an operation that returns a pointer (`sbrk`). -/
def native_ptr (op : Op) : Exec Ptr := fun w t =>
  match w t op with
  | some r => ⟨t ++ [op], .returned (cast_ptr r)⟩
  | none => ⟨t ++ [op], .never_returns⟩

/-- The call `exit(status)`: declared `noreturn`, it ends the process. -/
def sys_exit (status : Int) : Exec Unit := fun _ t =>
  ⟨t ++ [Op.exit status], .exited status⟩

/-- The call `printf(text)` of the user library, which returns nothing. -/
def printf (text : String) : Exec Unit := fun _ t =>
  ⟨t ++ [Op.printf text], .returned ()⟩

/-! ## The dispatcher -/

/-- The call descriptor `call_t` of the engine; `execute_syscall` reads only
its `sys_nr`. -/
structure call_t where
  sys_nr : Int
deriving DecidableEq, Repr

/-- The argument vector `intptr_t a[XV6_MAX_ARGS]`. -/
abbrev Args := Fin XV6_MAX_ARGS → Int

/-- The function `execute_syscall`: the `switch` on `c->sys_nr`, its cases in
the order of the source. -/
def execute_syscall (c : call_t) (a : Args) : Exec Int :=
  if c.sys_nr = XV6_SYS_fork then
    native Op.fork
  else if c.sys_nr = XV6_SYS_exit then do
    sys_exit (cast_int (a 0))
    return 0
  else if c.sys_nr = XV6_SYS_wait then
    native (Op.wait (cast_ptr (a 0)))
  else if c.sys_nr = XV6_SYS_pipe then
    native (Op.pipe (cast_ptr (a 0)))
  else if c.sys_nr = XV6_SYS_read then
    native (Op.read (cast_int (a 0)) (cast_ptr (a 1)) (cast_int (a 2)))
  else if c.sys_nr = XV6_SYS_write then
    native (Op.write (cast_int (a 0)) (cast_ptr (a 1)) (cast_int (a 2)))
  else if c.sys_nr = XV6_SYS_open then
    native (Op.open (cast_ptr (a 0)) (cast_int (a 1)))
  else if c.sys_nr = XV6_SYS_close then
    native (Op.close (cast_int (a 0)))
  else if c.sys_nr = XV6_SYS_kill then
    native (Op.kill (cast_int (a 0)))
  else if c.sys_nr = XV6_SYS_exec then
    native (Op.exec (cast_ptr (a 0)) (cast_ptr (a 1)))
  else if c.sys_nr = XV6_SYS_fstat then
    native (Op.fstat (cast_int (a 0)) (cast_ptr (a 1)))
  else if c.sys_nr = XV6_SYS_chdir then
    native (Op.chdir (cast_ptr (a 0)))
  else if c.sys_nr = XV6_SYS_dup then
    native (Op.dup (cast_int (a 0)))
  else if c.sys_nr = XV6_SYS_getpid then
    native Op.getpid
  else if c.sys_nr = XV6_SYS_sbrk then do
    let p ← native_ptr (Op.sbrk (cast_int (a 0)))
    return ptr_to_intptr p
  else if c.sys_nr = XV6_SYS_sleep then
    native (Op.sleep (cast_int (a 0)))
  else if c.sys_nr = XV6_SYS_uptime then
    native Op.uptime
  else if c.sys_nr = XV6_SYS_mknod then
    native (Op.mknod (cast_ptr (a 0)) (cast_short (a 1)) (cast_short (a 2)))
  else if c.sys_nr = XV6_SYS_unlink then
    native (Op.unlink (cast_ptr (a 0)))
  else if c.sys_nr = XV6_SYS_link then
    native (Op.link (cast_ptr (a 0)) (cast_ptr (a 1)))
  else if c.sys_nr = XV6_SYS_mkdir then
    native (Op.mkdir (cast_ptr (a 0)))
  else
    return (-1)

/-! ## Bootstrap -/

/-- The function `os_init`.  `XV6_BUILD` is the preprocessor symbol: when it
is defined the body is the `sbrk` test, otherwise nothing is done.  The
parameter of `sbrk` is an `int`, so `data_size` is converted; `(void*)-1` is
the pointer made of the word `-1`. -/
def os_init (XV6_BUILD : Bool) (argc : Int) (argv : Ptr) (data : Ptr)
    (data_size : Nat) : Exec Unit :=
  if XV6_BUILD then do
    let p ← native_ptr (Op.sbrk (cast_int data_size))
    if p = cast_ptr (-1) then
      printf "syz-executor: failed to allocate memory\n"
      sys_exit 1
  else
    return ()

/-! ## The coverage reporter -/

/-- The struct `cover_t`, declared by the engine outside this file: the six
fields the file assigns, and `rest`, which stands for every other field. -/
structure cover_t (ρ : Type) where
  fd : Int
  mmap_alloc_size : Nat
  data : Ptr
  data_end : Ptr
  data_offset : Int
  pc_offset : Int
  rest : ρ
deriving DecidableEq, Repr

/-- The function `cover_open`: the six assignments, under `if (cov)`. -/
def cover_open {ρ : Type} (cov : Option (cover_t ρ)) (extra : Bool) :
    Option (cover_t ρ) :=
  match cov with
  | some c =>
    some { c with
      fd := -1
      mmap_alloc_size := 0
      data := NULL
      data_end := NULL
      data_offset := 0
      pc_offset := 0 }
  | none => none

/-- The function `cover_enable`: its body only mentions its parameters. -/
def cover_enable {ρ : Type} (cov : Option (cover_t ρ)) (collect_comps : Bool)
    (extra : Bool) : Option (cover_t ρ) :=
  cov

/-- The function `cover_reset`: its body only mentions its parameter. -/
def cover_reset {ρ : Type} (cov : Option (cover_t ρ)) : Option (cover_t ρ) :=
  cov

/-- The function `cover_collect`: its body only mentions its parameter. -/
def cover_collect {ρ : Type} (cov : Option (cover_t ρ)) : Option (cover_t ρ) :=
  cov

/-- The overload `cover_check(uint32 pc)`. -/
def cover_check_uint32 (pc : Fin (2 ^ 32)) : Bool :=
  true

/-- The overload `cover_check(uint64 pc)`. -/
def cover_check_uint64 (pc : Fin (2 ^ 64)) : Bool :=
  true

/-! ## The capability stubs -/

def setup_control_pipes : Exec Unit := return ()
def setup_common : Exec Unit := return ()
def setup_fault : Exec Unit := return ()
def setup_leak : Exec Unit := return ()
def install_segv_handler : Exec Unit := return ()
def setup_usb : Exec Unit := return ()
def setup_sysctl : Exec Unit := return ()
def setup_binfmt_misc : Exec Unit := return ()
def setup_net : Exec Unit := return ()
def setup_sandbox : Exec Unit := return ()

def use_net_namespace : Exec Unit := return ()
def use_pid_namespace : Exec Unit := return ()
def use_uts_namespace : Exec Unit := return ()
def use_ipc_namespace : Exec Unit := return ()
def use_user_namespace : Exec Unit := return ()
def use_cgroup_namespace : Exec Unit := return ()
def use_time_namespace : Exec Unit := return ()
def use_tmpdir : Exec Unit := return ()
def use_sysctl : Exec Unit := return ()
def use_cgroups : Exec Unit := return ()
def use_tmpfile : Exec Unit := return ()
def drop_caps : Exec Unit := return ()

/-! ## The file-write helper -/

/-- The function `write_file`.  `strlen` is the function of the user library,
which reads the memory the pointer designates; its result is converted to the
`int` parameter of `write`.  The variadic arguments are never read. -/
def write_file (strlen : Ptr → Nat) (file : Ptr) (what : Ptr) : Exec Unit := do
  let fd ← native (Op.open file ((XV6_O_WRONLY ||| XV6_O_CREATE : Nat) : Int))
  if fd ≥ 0 then
    let _ ← native (Op.write fd what (cast_int (strlen what)))
    let _ ← native (Op.close fd)

/-! ## Notions of the specification -/

/-- Modelled from the spec: the prototypes of the system calls, declared in
`user/user.h`, which is not part of the source.  The operation that carries a
code, given the argument slots in positional order, each converted to the type
of the parameter: `int` by truncation to 32 bits, `short` by truncation to 16
bits, a pointer by reinterpretation of the word.  The exit code 2 and the
codes outside 1..21 have no entry. -/
def native_operation (code : Int) (a : Args) : Option Op :=
  if code = 1 then some Op.fork
  else if code = 3 then some (Op.wait (cast_ptr (a 0)))
  else if code = 4 then some (Op.pipe (cast_ptr (a 0)))
  else if code = 5 then some (Op.read (cast_int (a 0)) (cast_ptr (a 1)) (cast_int (a 2)))
  else if code = 6 then some (Op.kill (cast_int (a 0)))
  else if code = 7 then some (Op.exec (cast_ptr (a 0)) (cast_ptr (a 1)))
  else if code = 8 then some (Op.fstat (cast_int (a 0)) (cast_ptr (a 1)))
  else if code = 9 then some (Op.chdir (cast_ptr (a 0)))
  else if code = 10 then some (Op.dup (cast_int (a 0)))
  else if code = 11 then some Op.getpid
  else if code = 12 then some (Op.sbrk (cast_int (a 0)))
  else if code = 13 then some (Op.sleep (cast_int (a 0)))
  else if code = 14 then some Op.uptime
  else if code = 15 then some (Op.open (cast_ptr (a 0)) (cast_int (a 1)))
  else if code = 16 then some (Op.write (cast_int (a 0)) (cast_ptr (a 1)) (cast_int (a 2)))
  else if code = 17 then some (Op.mknod (cast_ptr (a 0)) (cast_short (a 1)) (cast_short (a 2)))
  else if code = 18 then some (Op.unlink (cast_ptr (a 0)))
  else if code = 19 then some (Op.link (cast_ptr (a 0)) (cast_ptr (a 1)))
  else if code = 20 then some (Op.mkdir (cast_ptr (a 0)))
  else if code = 21 then some (Op.close (cast_int (a 0)))
  else none

/-- A call of the coverage reporter after `cover_open`. -/
inductive CoverCall where
  | enable (collect_comps : Bool) (extra : Bool)
  | reset
  | collect
deriving DecidableEq, Repr

/-- The effect of one call of the coverage reporter on the handle. -/
def CoverCall.apply {ρ : Type} (call : CoverCall) (cov : Option (cover_t ρ)) :
    Option (cover_t ρ) :=
  match call with
  | .enable collect_comps extra => cover_enable cov collect_comps extra
  | .reset => cover_reset cov
  | .collect => cover_collect cov

/-- The effect of a sequence of calls of the coverage reporter, first call
first. -/
def cover_calls {ρ : Type} (calls : List CoverCall) (cov : Option (cover_t ρ)) :
    Option (cover_t ρ) :=
  calls.foldl (fun h call => call.apply h) cov

/-- The sentinel fields of a handle without coverage. -/
def unavailable {ρ : Type} (c : cover_t ρ) : Prop :=
  c.fd = -1 ∧ c.mmap_alloc_size = 0 ∧ c.data = NULL ∧ c.data_end = NULL ∧
    c.data_offset = 0 ∧ c.pc_offset = 0

instance {ρ : Type} (c : cover_t ρ) : Decidable (unavailable c) := by
  unfold unavailable; infer_instance

/-- The data buffer of a handle, the bytes from `data` up to `data_end`, is
empty. -/
def buffer_empty {ρ : Type} (c : cover_t ρ) : Prop :=
  c.data_end = c.data

instance {ρ : Type} (c : cover_t ρ) : Decidable (buffer_empty c) := by
  unfold buffer_empty; infer_instance

/-- The flags of the `open` calls of a trace, oldest first. -/
def open_flags : List Op → List Int
  | [] => []
  | Op.open _ flags :: rest => flags :: open_flags rest
  | _ :: rest => open_flags rest

/-- A flag is requested by the flags word of an `open` call
(`flags & flag`, as the kernel tests it). -/
def has_flag (flags : Int) (flag : Nat) : Prop :=
  flags.toNat &&& flag = flag

instance (flags : Int) (flag : Nat) : Decidable (has_flag flags flag) := by
  unfold has_flag; infer_instance

/-! ## Concrete inputs -/

/-- A kernel under which `open` returns the descriptor 3 and every other
operation returns 5. -/
def kernel_open_3 : World := fun _ op =>
  match op with
  | Op.open _ _ => some 3
  | _ => some 5

/-- A kernel under which `open` is refused with -1 and every other operation
returns 5. -/
def kernel_open_refused : World := fun _ op =>
  match op with
  | Op.open _ _ => some (-1)
  | _ => some 5

/-! ## Properties of the dispatcher -/

/-- A returned `int` or pointer that fits in 31 bits is not changed by the
conversion to `int`. -/
theorem cast_int_of_lt (n : Nat) (h : n < 2 ^ 31) : cast_int n = n := by
  unfold cast_int
  omega

/-- C1: for every call descriptor whose `sys_nr` is not one of the codes 1..21
and every argument vector, `execute_syscall` returns exactly -1, performs no
operation (the trace is the one it started from) and does not end the
process. -/
theorem execute_syscall_unsupported (c : call_t) (a : Args) (w : World) (t : List Op)
    (h : ¬ (1 ≤ c.sys_nr ∧ c.sys_nr ≤ 21)) :
    execute_syscall c a w t = ⟨t, .returned (-1)⟩ := by
  have e : ∀ k : Int, 1 ≤ k → k ≤ 21 → ¬ c.sys_nr = k := by
    intro k h1 h2 hk
    exact h (hk ▸ ⟨h1, h2⟩)
  unfold execute_syscall
  rw [if_neg (e XV6_SYS_fork (by decide) (by decide)),
    if_neg (e XV6_SYS_exit (by decide) (by decide)),
    if_neg (e XV6_SYS_wait (by decide) (by decide)),
    if_neg (e XV6_SYS_pipe (by decide) (by decide)),
    if_neg (e XV6_SYS_read (by decide) (by decide)),
    if_neg (e XV6_SYS_write (by decide) (by decide)),
    if_neg (e XV6_SYS_open (by decide) (by decide)),
    if_neg (e XV6_SYS_close (by decide) (by decide)),
    if_neg (e XV6_SYS_kill (by decide) (by decide)),
    if_neg (e XV6_SYS_exec (by decide) (by decide)),
    if_neg (e XV6_SYS_fstat (by decide) (by decide)),
    if_neg (e XV6_SYS_chdir (by decide) (by decide)),
    if_neg (e XV6_SYS_dup (by decide) (by decide)),
    if_neg (e XV6_SYS_getpid (by decide) (by decide)),
    if_neg (e XV6_SYS_sbrk (by decide) (by decide)),
    if_neg (e XV6_SYS_sleep (by decide) (by decide)),
    if_neg (e XV6_SYS_uptime (by decide) (by decide)),
    if_neg (e XV6_SYS_mknod (by decide) (by decide)),
    if_neg (e XV6_SYS_unlink (by decide) (by decide)),
    if_neg (e XV6_SYS_link (by decide) (by decide)),
    if_neg (e XV6_SYS_mkdir (by decide) (by decide))]
  rfl

/-- The all-zero argument vector with the code 0, and a kernel that would
answer 7 to anything. -/
theorem execute_syscall_unsupported_witness :
    ¬ (1 ≤ (⟨0⟩ : call_t).sys_nr ∧ (⟨0⟩ : call_t).sys_nr ≤ 21) ∧
      execute_syscall ⟨0⟩ (fun _ => 0) (fun _ _ => some 7) [] = ⟨[], .returned (-1)⟩ :=
  ⟨by decide, execute_syscall_unsupported ⟨0⟩ (fun _ => 0) (fun _ _ => some 7) [] (by decide)⟩

/-- C2: for every call descriptor whose `sys_nr` is one of the 20 codes 1 and
3..21 and every argument vector, `execute_syscall` performs exactly one
operation, the one that carries the code with the slots in positional order
converted to the types of its parameters, and ends the way that operation
ends: when the operation returns `r` it returns `r`. -/
theorem execute_syscall_relays (c : call_t) (a : Args) (w : World) (t : List Op)
    (h : 1 ≤ c.sys_nr ∧ c.sys_nr ≤ 21 ∧ c.sys_nr ≠ 2) :
    ∃ op, native_operation c.sys_nr a = some op ∧
      execute_syscall c a w t =
        ⟨t ++ [op], match w t op with
          | some r => .returned r
          | none => .never_returns⟩ := by
  obtain ⟨n⟩ := c
  obtain ⟨h1, h2, h3⟩ := h
  simp only at h1 h2 h3
  interval_cases n <;>
    first
    | exact absurd rfl h3
    | (refine ⟨_, rfl, ?_⟩
       show native _ w t = _
       unfold native
       cases w t _ <;> rfl)
    | (refine ⟨_, rfl, ?_⟩
       show Exec.seq (native_ptr _) _ w t = _
       unfold Exec.seq native_ptr
       cases w t _ <;> rfl)

/-- The code 3 (`wait`) with the slots 0, 1, .., 5 and a kernel that answers
7. -/
theorem execute_syscall_relays_witness :
    (1 ≤ (⟨3⟩ : call_t).sys_nr ∧ (⟨3⟩ : call_t).sys_nr ≤ 21 ∧ (⟨3⟩ : call_t).sys_nr ≠ 2) ∧
      ∃ op, native_operation (⟨3⟩ : call_t).sys_nr (fun i => i.val) = some op ∧
        execute_syscall ⟨3⟩ (fun i => i.val) (fun _ _ => some 7) [] =
          ⟨[] ++ [op], match (fun _ _ => some 7 : World) [] op with
            | some r => .returned r
            | none => .never_returns⟩ :=
  ⟨by decide, execute_syscall_relays ⟨3⟩ (fun i => i.val) (fun _ _ => some 7) [] (by decide)⟩

/-- C3: for every argument vector `a`, dispatching the exit code
(`sys_nr = XV6_SYS_exit = 2`) ends the process with the status `(int)a[0]`;
the only operation performed is that `exit`, and no value is returned to the
caller. -/
theorem execute_syscall_exit (c : call_t) (a : Args) (w : World) (t : List Op)
    (h : c.sys_nr = XV6_SYS_exit) :
    XV6_SYS_exit = 2 ∧
      execute_syscall c a w t =
        ⟨t ++ [Op.exit (cast_int (a 0))], .exited (cast_int (a 0))⟩ ∧
      ∀ v, (execute_syscall c a w t).outcome ≠ .returned v := by
  have hrun : execute_syscall c a w t =
      ⟨t ++ [Op.exit (cast_int (a 0))], .exited (cast_int (a 0))⟩ := by
    unfold execute_syscall
    rw [if_neg (by rw [h]; decide), if_pos h]
    rfl
  refine ⟨rfl, hrun, ?_⟩
  intro v hv
  rw [hrun] at hv
  cases hv

/-- The exit code with the slot 0 holding `2 ^ 32 + 5`: the status is 5. -/
theorem execute_syscall_exit_witness :
    (⟨2⟩ : call_t).sys_nr = XV6_SYS_exit ∧
      (XV6_SYS_exit = 2 ∧
        execute_syscall ⟨2⟩ (fun _ => 2 ^ 32 + 5) (fun _ _ => some 7) [] =
          ⟨[] ++ [Op.exit (cast_int (2 ^ 32 + 5))], .exited (cast_int (2 ^ 32 + 5))⟩ ∧
        ∀ v, (execute_syscall ⟨2⟩ (fun _ => 2 ^ 32 + 5) (fun _ _ => some 7) []).outcome ≠
          .returned v) :=
  ⟨rfl, execute_syscall_exit ⟨2⟩ (fun _ => 2 ^ 32 + 5) (fun _ _ => some 7) [] rfl⟩

/-! ## Properties of the coverage reporter -/

/-- A sequence of calls of the coverage reporter leaves the handle as it
was. -/
theorem cover_calls_eq {ρ : Type} (calls : List CoverCall) (cov : Option (cover_t ρ)) :
    cover_calls calls cov = cov := by
  unfold cover_calls
  induction calls with
  | nil => rfl
  | cons call rest ih =>
    rw [List.foldl_cons]
    cases call <;> exact ih

/-- C4: for every non-null handle, whatever it held, and either value of
`extra`, after `cover_open` followed by any finite sequence of `cover_enable`,
`cover_reset` and `cover_collect` calls the handle has `fd = -1`,
`mmap_alloc_size = 0`, `data = NULL`, `data_end = NULL`, `data_offset = 0` and
`pc_offset = 0`; in particular `cover_open` followed at once by
`cover_collect` leaves such a handle, whose buffer is empty. -/
theorem cover_open_permanently_unavailable {ρ : Type} (c0 : cover_t ρ) (extra : Bool)
    (calls : List CoverCall) :
    (∃ c, cover_calls calls (cover_open (some c0) extra) = some c ∧
      c.fd = -1 ∧ c.mmap_alloc_size = 0 ∧ c.data = NULL ∧ c.data_end = NULL ∧
      c.data_offset = 0 ∧ c.pc_offset = 0) ∧
    (∃ c, cover_collect (cover_open (some c0) extra) = some c ∧
      unavailable c ∧ buffer_empty c) := by
  refine ⟨⟨_, cover_calls_eq calls _, rfl, rfl, rfl, rfl, rfl, rfl⟩, ?_⟩
  exact ⟨_, rfl, ⟨rfl, rfl, rfl, rfl, rfl, rfl⟩, rfl⟩

/-- C6: `cover_check` is true of every program counter, in its 32-bit and in
its 64-bit overload. -/
theorem cover_check_always_true :
    (∀ pc, cover_check_uint32 pc = true) ∧ (∀ pc, cover_check_uint64 pc = true) :=
  ⟨fun _ => rfl, fun _ => rfl⟩

/-! ## Properties of the bootstrap -/

/-- C7: in the XV6 build, for every `argc`, `argv`, `data` and `data_size`,
`os_init` performs one `sbrk` call, whose argument is `data_size` converted to
the `int` parameter.  When the call returns `(void*)-1`, `os_init` prints
"syz-executor: failed to allocate memory" (and a newline), ends the process
with the status 1 and does not return; when it returns another pointer,
`os_init` returns, and the `sbrk` call is all it did. -/
theorem os_init_xv6 (argc : Int) (argv : Ptr) (data : Ptr) (data_size : Nat)
    (w : World) (t : List Op) :
    os_init true argc argv data data_size w t =
      match w t (Op.sbrk (cast_int data_size)) with
      | some r =>
        if r = -1 then
          ⟨t ++ [Op.sbrk (cast_int data_size),
              Op.printf "syz-executor: failed to allocate memory\n", Op.exit 1],
            .exited 1⟩
        else
          ⟨t ++ [Op.sbrk (cast_int data_size)], .returned ()⟩
      | none => ⟨t ++ [Op.sbrk (cast_int data_size)], .never_returns⟩ := by
  show Exec.seq (native_ptr _) _ w t = _
  unfold Exec.seq native_ptr
  cases hr : w t (Op.sbrk (cast_int data_size)) with
  | none => rfl
  | some r =>
    by_cases h : r = -1
    · subst h
      simp only [if_true]
      show Exec.seq (printf _) _ w _ = _
      simp [Exec.seq, printf, sys_exit, cast_ptr]
    · have hp : ¬ cast_ptr r = cast_ptr (-1) := by
        intro hc
        exact h (congrArg Ptr.word hc)
      simp only [if_neg h, if_neg hp]
      rfl

/-! ## Properties of the capability stubs -/

/-- C8: each of the 22 capability stubs, from every state of the process
(every kernel, every trace of earlier operations), returns, performs no
operation and leaves the trace as it was. -/
theorem capability_stubs_no_op (w : World) (t : List Op) :
    [setup_control_pipes, setup_common, setup_fault, setup_leak, install_segv_handler,
      setup_usb, setup_sysctl, setup_binfmt_misc, setup_net, setup_sandbox,
      use_net_namespace, use_pid_namespace, use_uts_namespace, use_ipc_namespace,
      use_user_namespace, use_cgroup_namespace, use_time_namespace,
      use_tmpdir, use_sysctl, use_cgroups, use_tmpfile, drop_caps].map (fun stub => stub w t) =
      List.replicate 22 ⟨t, .returned ()⟩ :=
  rfl

/-! ## Properties of the file-write helper -/

/-- The run of `write_file`, case by case on what the kernel answers. -/
theorem write_file_run (strlen : Ptr → Nat) (file : Ptr) (what : Ptr) (w : World)
    (t : List Op) :
    write_file strlen file what w t =
      match w t (Op.open file 513) with
      | none => ⟨t ++ [Op.open file 513], .never_returns⟩
      | some fd =>
        if fd ≥ 0 then
          match w (t ++ [Op.open file 513]) (Op.write fd what (cast_int (strlen what))) with
          | none =>
            ⟨t ++ [Op.open file 513, Op.write fd what (cast_int (strlen what))],
              .never_returns⟩
          | some _ =>
            match w (t ++ [Op.open file 513, Op.write fd what (cast_int (strlen what))])
                (Op.close fd) with
            | none =>
              ⟨t ++ [Op.open file 513, Op.write fd what (cast_int (strlen what)),
                  Op.close fd], .never_returns⟩
            | some _ =>
              ⟨t ++ [Op.open file 513, Op.write fd what (cast_int (strlen what)),
                  Op.close fd], .returned ()⟩
        else ⟨t ++ [Op.open file 513], .returned ()⟩ := by
  show Exec.seq (native (Op.open file 513)) _ w t = _
  unfold Exec.seq native
  cases w t (Op.open file 513) with
  | none => rfl
  | some fd =>
    by_cases hfd : fd ≥ 0
    · simp only [if_pos hfd]
      show Exec.seq (native _) _ w _ = _
      unfold Exec.seq native
      cases w (t ++ [Op.open file 513]) (Op.write fd what (cast_int (strlen what))) with
      | none => simp
      | some r =>
        simp only [List.append_assoc, List.singleton_append]
        show Exec.seq (native _) _ w _ = _
        unfold Exec.seq native
        cases w (t ++ [Op.open file 513, Op.write fd what (cast_int (strlen what))])
          (Op.close fd) with
        | none => simp
        | some r2 => simp [pure, Exec.ret]
    · simp only [if_neg hfd]
      rfl

/-- C9, as stated, fails: the one `open` call of `write_file` has the flags
0x201, in which the truncate flag `XV6_O_TRUNC` is not set. -/
theorem write_file_open_lacks_trunc :
    ∃ flags, open_flags (write_file (fun _ => 5) ⟨100⟩ ⟨200⟩ (fun _ _ => some 3) []).trace =
        [flags] ∧ ¬ has_flag flags XV6_O_TRUNC :=
  ⟨513, by decide, by decide⟩

/-- C9, amended: for every file name and content, `write_file` issues one
`open` call, its first operation, with the flags
`XV6_O_WRONLY | XV6_O_CREATE = 0x201`: write access and the create flag are
requested, the truncate flag is not. -/
theorem write_file_open_flags (strlen : Ptr → Nat) (file : Ptr) (what : Ptr) (w : World)
    (t : List Op) :
    ∃ ops, (write_file strlen file what w t).trace = t ++ ops ∧
      ops.head? = some (Op.open file 0x201) ∧
      open_flags ops = [((XV6_O_WRONLY ||| XV6_O_CREATE : Nat) : Int)] ∧
      has_flag 0x201 XV6_O_WRONLY ∧ has_flag 0x201 XV6_O_CREATE ∧
      ¬ has_flag 0x201 XV6_O_TRUNC := by
  have hflags : ((XV6_O_WRONLY ||| XV6_O_CREATE : Nat) : Int) = 513 := by decide
  rw [write_file_run, hflags]
  cases w t (Op.open file 513) with
  | none => exact ⟨[Op.open file 513], rfl, rfl, rfl, by decide, by decide, by decide⟩
  | some fd =>
    by_cases hfd : fd ≥ 0
    · simp only [if_pos hfd]
      cases w (t ++ [Op.open file 513]) (Op.write fd what (cast_int (strlen what))) with
      | none => exact ⟨_, rfl, rfl, rfl, by decide, by decide, by decide⟩
      | some r =>
        cases w (t ++ [Op.open file 513, Op.write fd what (cast_int (strlen what))])
          (Op.close fd) with
        | none => exact ⟨_, rfl, rfl, rfl, by decide, by decide, by decide⟩
        | some r2 => exact ⟨_, rfl, rfl, rfl, by decide, by decide, by decide⟩
    · simp only [if_neg hfd]
      exact ⟨[Op.open file 513], rfl, rfl, rfl, by decide, by decide, by decide⟩

/-- C10: for every file name and content, when `open` returns a negative
descriptor `write_file` performs nothing more (no `write`, no `close`, no
`printf`) and returns; when `open` returns `fd >= 0` and the `write` returns,
whatever value, `write_file` has performed one `write` to `fd` of `what` with
the length `strlen(what)` (converted to `int`, which keeps every length below
`2 ^ 31`) and then one `close(fd)`, and returns when the `close` does. -/
theorem write_file_ignores_open_failure (strlen : Ptr → Nat) (file : Ptr) (what : Ptr)
    (w : World) (t : List Op) (fd : Int) (hopen : w t (Op.open file 0x201) = some fd) :
    (fd < 0 → write_file strlen file what w t = ⟨t ++ [Op.open file 0x201], .returned ()⟩) ∧
    (0 ≤ fd → ∀ r,
      w (t ++ [Op.open file 0x201]) (Op.write fd what (cast_int (strlen what))) = some r →
      (write_file strlen file what w t).trace =
          t ++ [Op.open file 0x201, Op.write fd what (cast_int (strlen what)), Op.close fd] ∧
        (write_file strlen file what w t).outcome =
          match w (t ++ [Op.open file 0x201, Op.write fd what (cast_int (strlen what))])
              (Op.close fd) with
          | some _ => .returned ()
          | none => .never_returns) ∧
    (strlen what < 2 ^ 31 → cast_int (strlen what) = strlen what) := by
  refine ⟨?_, ?_, cast_int_of_lt _⟩
  · intro hneg
    have hfd : ¬ fd ≥ 0 := by omega
    rw [write_file_run]
    simp only [hopen, if_neg hfd]
  · intro hpos r hwrite
    have hfd : fd ≥ 0 := hpos
    rw [write_file_run]
    simp only [hopen, if_pos hfd, hwrite]
    cases w (t ++ [Op.open file 513, Op.write fd what (cast_int (strlen what))])
      (Op.close fd) <;> exact ⟨rfl, rfl⟩

/-- The file at 100 and the content at 200, five bytes long.  Under
`kernel_open_3` the run is `open`, `write` of 5 bytes to 3, `close(3)`; under
`kernel_open_refused` it is the `open` alone. -/
theorem write_file_ignores_open_failure_witness :
    (kernel_open_3 [] (Op.open ⟨100⟩ 0x201) = some 3 ∧
      (write_file (fun _ => 5) ⟨100⟩ ⟨200⟩ kernel_open_3 []).trace =
        [Op.open ⟨100⟩ 0x201, Op.write 3 ⟨200⟩ 5, Op.close 3] ∧
      (write_file (fun _ => 5) ⟨100⟩ ⟨200⟩ kernel_open_3 []).outcome = .returned ()) ∧
    (kernel_open_refused [] (Op.open ⟨100⟩ 0x201) = some (-1) ∧
      write_file (fun _ => 5) ⟨100⟩ ⟨200⟩ kernel_open_refused [] =
        ⟨[Op.open ⟨100⟩ 0x201], .returned ()⟩) :=
  ⟨⟨rfl, (write_file_ignores_open_failure (fun _ => 5) ⟨100⟩ ⟨200⟩ kernel_open_3 [] 3
      rfl).2.1 (by decide) 5 rfl⟩,
    ⟨rfl, (write_file_ignores_open_failure (fun _ => 5) ⟨100⟩ ⟨200⟩ kernel_open_refused []
      (-1) rfl).1 (by decide)⟩⟩

end Xv6Executor
